import Mathlib

/-!
Shallow embedding of the request/response translation and dispatch layer of
the jira-mcp-server repository: the zod input schemas (src/schemas.ts), the
backend access component (src/jira-client.ts) and the tool dispatcher
(the CallToolRequestSchema handler in src/index.ts).

JSON values are modelled by `JVal` with numbers as rationals (every finite
JS number is a rational). `JSON.stringify(v, null, 2)` is modelled by
`renderJson` up to whitespace/escaping, exact on the empty object.
`JSON.parse` of a response body is external library behaviour; its result is
carried on the modelled `HttpResponse` (`parsedErrorBody` for the error-shape
parse, `parsedJson` for the success-shape parse, `none` meaning the parse
threw). `URLSearchParams` is modelled as an ordered key/value list whose
`toString` joins `k=v` with `&` (percent-encoding abstracted away).
-/

namespace JiraMcp

/-- JSON-like argument/result values exchanged over the tool channel. -/
inductive JVal where
  | null : JVal
  | bool (b : Bool) : JVal
  | num (q : ℚ) : JVal
  | str (s : String) : JVal
  | arr (elems : List JVal) : JVal
  | obj (fields : List (String × JVal)) : JVal

/-- Property lookup on a JSON object (JS objects have unique keys; first hit). -/
def getField : List (String × JVal) → String → Option JVal
  | [], _ => none
  | (k, v) :: rest, key => if k = key then some v else getField rest key

mutual

/-- Models `JSON.stringify(v, null, 2)` up to whitespace and string escaping;
exact on the empty object, which renders as `{}`. -/
def renderJson : JVal → String
  | .null => "null"
  | .bool true => "true"
  | .bool false => "false"
  | .num q => toString q
  | .str s => "\"" ++ s ++ "\""
  | .arr xs => "[" ++ renderJsonList xs ++ "]"
  | .obj fs => "\x7b" ++ renderJsonFields fs ++ "\x7d"

def renderJsonList : List JVal → String
  | [] => ""
  | [x] => renderJson x
  | x :: y :: xs => renderJson x ++ "," ++ renderJsonList (y :: xs)

def renderJsonFields : List (String × JVal) → String
  | [] => ""
  | [(k, v)] => "\"" ++ k ++ "\": " ++ renderJson v
  | (k, v) :: f :: fs => "\"" ++ k ++ "\": " ++ renderJson v ++ "," ++ renderJsonFields (f :: fs)

end

/-- JS `Array.prototype.join(sep)`: elements interleaved with the separator,
empty string on the empty list. -/
def joinStr (sep : String) : List String → String
  | [] => ""
  | [s] => s
  | s :: t :: ts => s ++ sep ++ joinStr sep (t :: ts)

/-- The structured Jira error body `{errorMessages?: string[], errors?: {field: message}}`
(src/types.ts, JiraErrorResponse); `errors` entries keep object insertion order. -/
structure JiraErrorResponse where
  errorMessages : Option (List String)
  errors : Option (List (String × String))
deriving DecidableEq

/-- src/jira-client.ts lines 12-21: the typed error thrown for non-2xx responses. -/
structure JiraClientError where
  message : String
  statusCode : Option Nat
  jiraErrors : Option JiraErrorResponse
deriving DecidableEq

/-- An HTTP response as observed by `request`: status, status text, the body
read as text, and the results of the two JSON parses the code may attempt on
that text (`none` = `JSON.parse` threw, e.g. on an empty or non-JSON body). -/
structure HttpResponse where
  status : Nat
  statusText : String
  bodyText : String
  parsedErrorBody : Option JiraErrorResponse
  parsedJson : Option JVal

/-- Outcome of one call through the request primitive: a parsed success value,
a thrown `JiraClientError`, or some other thrown failure (a `SyntaxError` from
parsing a success body, or a transport failure rethrown by the caller). -/
inductive CallOutcome where
  | success (v : JVal) : CallOutcome
  | jiraError (e : JiraClientError) : CallOutcome
  | otherFailure (msg : String) : CallOutcome

/-- src/jira-client.ts lines 86-117: classification of a received HTTP
response by `JiraClient.request`. `response.ok` is status in 200-299; on a
non-ok status the error body parse is attempted, the flat message list is
built (top-level messages, then `field: message` pairs), joined with `"; "`
or replaced by the `HTTP <status>: <statusText>` fallback, and a
`JiraClientError` is thrown. A 204 status or empty body yields `{}`;
otherwise the body is parsed as the result. -/
def request (resp : HttpResponse) : CallOutcome :=
  if ¬ (200 ≤ resp.status ∧ resp.status ≤ 299) then
    let errorData := resp.parsedErrorBody
    let errorMessages :=
      ((errorData.bind JiraErrorResponse.errorMessages).getD [])
        ++ (((errorData.bind JiraErrorResponse.errors).getD []).map
              (fun p => p.1 ++ ": " ++ p.2))
    let message :=
      if errorMessages.length > 0 then joinStr "; " errorMessages
      else "HTTP " ++ toString resp.status ++ ": " ++ resp.statusText
    .jiraError ⟨message, some resp.status, errorData⟩
  else if resp.status = 204 ∨ resp.bodyText = "" then
    .success (.obj [])
  else
    match resp.parsedJson with
    | some v => .success v
    | none => .otherFailure "Unexpected end of JSON input"

/-! ## Input schemas (src/schemas.ts)

Each zod schema is modelled as a parse function from a raw JSON argument
object to a typed input or a diagnostic string. The diagnostic strings model
zod's messages abstractly (zod aggregates issues into a longer report; only
the success/failure split and the fact that the dispatcher prefixes the
diagnostic are load-bearing for the claims). -/

/-- `z.string()` on a required key. -/
def reqString (args : List (String × JVal)) (k : String) : Except String String :=
  match getField args k with
  | some (.str s) => .ok s
  | some _ => .error (k ++ ": Expected string")
  | none => .error (k ++ ": Required")

/-- `z.string().optional()`. -/
def optString (args : List (String × JVal)) (k : String) :
    Except String (Option String) :=
  match getField args k with
  | some (.str s) => .ok (some s)
  | some _ => .error (k ++ ": Expected string")
  | none => .ok none

/-- Element check for `z.array(z.string())`. -/
def asStringList (k : String) : List JVal → Except String (List String)
  | [] => .ok []
  | .str s :: rest => (asStringList k rest).map (fun tl => s :: tl)
  | _ :: _ => .error (k ++ ": Expected string")

/-- `z.array(z.string()).optional()`. -/
def optStringArray (args : List (String × JVal)) (k : String) :
    Except String (Option (List String)) :=
  match getField args k with
  | some (.arr xs) => (asStringList k xs).map some
  | some _ => .error (k ++ ": Expected array")
  | none => .ok none

/-- Typed value of `SearchIssuesSchema` (`maxResults` carries its default). -/
structure SearchIssuesInput where
  jql : String
  maxResults : Int
  fields : Option (List String)
deriving DecidableEq

/-- src/schemas.ts lines 6-24, `SearchIssuesSchema.parse`: required string
`jql`; `maxResults` a number that must be an integer within 1-100, optional
with default 50; optional string array `fields`. -/
def SearchIssuesSchema_parse (args : List (String × JVal)) :
    Except String SearchIssuesInput := do
  let jql ← reqString args "jql"
  let maxResults ←
    match getField args "maxResults" with
    | none => Except.ok (50 : Int)
    | some (.num q) =>
        if q.den ≠ 1 then
          Except.error "maxResults: Expected integer, received float"
        else if q < 1 then
          Except.error "maxResults: Number must be greater than or equal to 1"
        else if 100 < q then
          Except.error "maxResults: Number must be less than or equal to 100"
        else Except.ok q.num
    | some _ => Except.error "maxResults: Expected number"
  let fields ← optStringArray args "fields"
  return ⟨jql, maxResults, fields⟩

/-- Typed value of `GetIssueSchema`. -/
structure GetIssueInput where
  issueKey : String
  fields : Option (List String)
  expand : Option (List String)
deriving DecidableEq

/-- src/schemas.ts lines 29-38, `GetIssueSchema.parse`. -/
def GetIssueSchema_parse (args : List (String × JVal)) :
    Except String GetIssueInput := do
  let issueKey ← reqString args "issueKey"
  let fields ← optStringArray args "fields"
  let expand ← optStringArray args "expand"
  return ⟨issueKey, fields, expand⟩

/-- Typed value of `CreateIssueSchema`. -/
structure CreateIssueInput where
  projectKey : String
  summary : String
  issueType : String
  description : Option String
  priority : Option String
  assignee : Option String
  labels : Option (List String)
  components : Option (List String)
deriving DecidableEq

/-- src/schemas.ts lines 43-55, `CreateIssueSchema.parse`. -/
def CreateIssueSchema_parse (args : List (String × JVal)) :
    Except String CreateIssueInput := do
  let projectKey ← reqString args "projectKey"
  let summary ← reqString args "summary"
  let issueType ← reqString args "issueType"
  let description ← optString args "description"
  let priority ← optString args "priority"
  let assignee ← optString args "assignee"
  let labels ← optStringArray args "labels"
  let components ← optStringArray args "components"
  return ⟨projectKey, summary, issueType, description, priority, assignee,
          labels, components⟩

/-- `z.enum(["group", "role"])` for comment visibility. -/
inductive VisibilityType where
  | group : VisibilityType
  | role : VisibilityType
deriving DecidableEq

/-- The optional `visibility` object of `AddCommentSchema`. -/
structure Visibility where
  type : VisibilityType
  value : String
deriving DecidableEq

/-- Typed value of `AddCommentSchema`. -/
structure AddCommentInput where
  issueKey : String
  body : String
  visibility : Option Visibility
deriving DecidableEq

/-- src/schemas.ts lines 60-70, `AddCommentSchema.parse`. -/
def AddCommentSchema_parse (args : List (String × JVal)) :
    Except String AddCommentInput := do
  let issueKey ← reqString args "issueKey"
  let body ← reqString args "body"
  let visibility ←
    match getField args "visibility" with
    | none => Except.ok (none : Option Visibility)
    | some (.obj fs) => do
        let vtype ←
          match getField fs "type" with
          | some (.str "group") => Except.ok VisibilityType.group
          | some (.str "role") => Except.ok VisibilityType.role
          | some _ => Except.error "visibility.type: Invalid enum value"
          | none => Except.error "visibility.type: Required"
        let value ←
          match getField fs "value" with
          | some (.str s) => Except.ok s
          | some _ => Except.error "visibility.value: Expected string"
          | none => Except.error "visibility.value: Required"
        Except.ok (some ⟨vtype, value⟩)
    | some _ => Except.error "visibility: Expected object"
  return ⟨issueKey, body, visibility⟩

/-! ## Backend access component (src/jira-client.ts): outbound requests

Each public operation is a thin specialization of the request primitive; its
pure part — the HTTP method, the endpoint path suffix and the request body it
hands to `request` — is modelled here. -/

/-- Options of `JiraClient.searchIssues`. -/
structure SearchOptions where
  maxResults : Option Int := none
  startAt : Option Int := none
  fields : Option (List String) := none

/-- JSON body `{jql, maxResults, startAt, fields}` sent to the search path. -/
structure SearchBody where
  jql : String
  maxResults : Int
  startAt : Int
  fields : List String
deriving DecidableEq

/-- Outbound request of `searchIssues`. -/
structure SearchRequest where
  method : String
  endpoint : String
  body : SearchBody
deriving DecidableEq

/-- src/jira-client.ts lines 123-149, `JiraClient.searchIssues`: POST to
`/search` with body `{jql, maxResults ?? 50, startAt ?? 0, fields ?? default
projection}`. -/
def searchIssues (jql : String) (options : SearchOptions) : SearchRequest :=
  { method := "POST"
    endpoint := "/search"
    body :=
      { jql := jql
        maxResults := options.maxResults.getD 50
        startAt := options.startAt.getD 0
        fields := options.fields.getD
          ["key", "summary", "status", "assignee", "issuetype", "priority",
           "project", "created", "updated"] } }

/-- Options of `JiraClient.getIssue`. -/
structure GetIssueOptions where
  fields : Option (List String) := none
  expand : Option (List String) := none

/-- Outbound request of `getIssue` (GET, no body). -/
structure GetRequest where
  method : String
  endpoint : String
deriving DecidableEq

/-- src/jira-client.ts lines 154-175, `JiraClient.getIssue`: build
`URLSearchParams`, setting `fields` then `expand` only when present and
non-empty, each joined by commas; append `?<queryString>` only when the
rendered query string is non-empty. -/
def getIssue (issueIdOrKey : String) (options : GetIssueOptions) : GetRequest :=
  let params : List (String × String) :=
    (match options.fields with
     | some fs => if fs.length > 0 then [("fields", joinStr "," fs)] else []
     | none => [])
    ++ (match options.expand with
        | some es => if es.length > 0 then [("expand", joinStr "," es)] else []
        | none => [])
  let queryString := joinStr "&" (params.map (fun p => p.1 ++ "=" ++ p.2))
  { method := "GET"
    endpoint := "/issue/" ++ issueIdOrKey
        ++ (if queryString = "" then "" else "?" ++ queryString) }

/-- Reference object `{key: <value>}` (project reference). -/
structure ProjectRef where
  key : String
deriving DecidableEq

/-- Reference object `{name: <value>}` (issue type, priority, assignee,
component references). -/
structure NameRef where
  name : String
deriving DecidableEq

/-- src/types.ts `CreateIssueFields`: the nested-reference fields object the
dispatcher passes to `JiraClient.createIssue`; `none` models a JS `undefined`
property value. -/
structure CreateIssueFields where
  project : ProjectRef
  summary : String
  issuetype : NameRef
  description : Option String
  priority : Option NameRef
  assignee : Option NameRef
  labels : Option (List String)
  components : Option (List NameRef)
deriving DecidableEq

/-- A key/value pair kept by `JSON.stringify` only when the value is present
(JSON serialization drops `undefined`-valued keys). -/
def optJsonField (k : String) (v : Option JVal) : List (String × JVal) :=
  match v with
  | some j => [(k, j)]
  | none => []

/-- JSON serialization of the `fields` object built in src/index.ts lines
149-158: keys appear in the object-literal insertion order, and keys whose
value is `undefined` are dropped by `JSON.stringify`. -/
def serializeCreateFields (f : CreateIssueFields) : List (String × JVal) :=
  [("project", JVal.obj [("key", JVal.str f.project.key)]),
   ("summary", JVal.str f.summary),
   ("issuetype", JVal.obj [("name", JVal.str f.issuetype.name)])]
  ++ optJsonField "description" (f.description.map JVal.str)
  ++ optJsonField "priority"
       (f.priority.map (fun p => JVal.obj [("name", JVal.str p.name)]))
  ++ optJsonField "assignee"
       (f.assignee.map (fun a => JVal.obj [("name", JVal.str a.name)]))
  ++ optJsonField "labels" (f.labels.map (fun ls => JVal.arr (ls.map JVal.str)))
  ++ optJsonField "components"
       (f.components.map (fun cs =>
          JVal.arr (cs.map (fun c => JVal.obj [("name", JVal.str c.name)]))))

/-- Outbound request with a serialized JSON body. -/
structure JsonBodyRequest where
  method : String
  endpoint : String
  body : JVal

/-- src/jira-client.ts lines 180-182, `JiraClient.createIssue`: POST to
`/issue` with body `{fields}` (serialized by `JSON.stringify` inside
`request`, which drops `undefined`-valued keys). -/
def createIssue (fields : CreateIssueFields) : JsonBodyRequest :=
  { method := "POST"
    endpoint := "/issue"
    body := JVal.obj [("fields", JVal.obj (serializeCreateFields fields))] }

/-- src/jira-client.ts lines 187-207, `JiraClient.addComment`: POST to
`/issue/<idOrKey>/comment` with body `{body, visibility?}`, the `visibility`
key included only when provided. -/
def addComment (issueIdOrKey : String) (body : String)
    (visibility : Option Visibility) : JsonBodyRequest :=
  { method := "POST"
    endpoint := "/issue/" ++ issueIdOrKey ++ "/comment"
    body := JVal.obj
      ([("body", JVal.str body)]
        ++ optJsonField "visibility"
             (visibility.map (fun v => JVal.obj
               [("type", JVal.str (match v.type with
                                   | .group => "group"
                                   | .role => "role")),
                ("value", JVal.str v.value)]))) }

/-! ## Dispatcher (src/index.ts) -/

/-- src/index.ts lines 149-158: the reshaping of validated flat create
inputs into the nested reference objects the remote API expects. JS string
truthiness is used for `priority` and `assignee` (`input.priority ? {name:
input.priority} : undefined`), so a present empty string maps to `undefined`. -/
def buildCreateIssueFields (input : CreateIssueInput) : CreateIssueFields :=
  { project := ⟨input.projectKey⟩
    summary := input.summary
    issuetype := ⟨input.issueType⟩
    description := input.description
    priority :=
      match input.priority with
      | some p => if p = "" then none else some ⟨p⟩
      | none => none
    assignee :=
      match input.assignee with
      | some a => if a = "" then none else some ⟨a⟩
      | none => none
    labels := input.labels
    components := input.components.map (fun cs => cs.map NameRef.mk) }

/-- The backend as seen by one tool call: either the fetch resolved to an
HTTP response, or it rejected with a transport failure. -/
inductive FetchOutcome where
  | response (resp : HttpResponse) : FetchOutcome
  | transportError (msg : String) : FetchOutcome

/-- The call outcome the dispatcher observes: `request` classifies a
received response; a transport failure is rethrown raw by `request`
(src/jira-client.ts lines 71-77) and reaches the dispatcher unclassified. -/
def backendCall (backend : FetchOutcome) : CallOutcome :=
  match backend with
  | .response resp => request resp
  | .transportError msg => .otherFailure msg

/-- The tool response envelope: text content blocks plus the error flag
(`isError` is absent, i.e. false, on success responses). -/
structure Envelope where
  content : List String
  isError : Bool
deriving DecidableEq

/-- Result of `handle`: a returned envelope, or an `McpError` thrown past the
handler (code -32601 `MethodNotFound` for unknown tools). -/
inductive HandleResult where
  | ok (env : Envelope) : HandleResult
  | mcpError (code : Int) (msg : String) : HandleResult
deriving DecidableEq

/-- JSON-RPC `ErrorCode.MethodNotFound` used by the thrown `McpError`. -/
def methodNotFoundCode : Int := -32601

/-- The closed tool catalog (src/index.ts lines 55-80). -/
def toolNames : List String :=
  ["jira_search_issues", "jira_get_issue", "jira_create_issue",
   "jira_add_comment"]

/-- Envelope produced by the try/catch of src/index.ts lines 113-216 once the
backend call's outcome is known: success pretty-prints the result;
`JiraClientError` becomes `Jira API Error: <message>` with `isError`; any
other failure becomes `Error: <message>` with `isError`. -/
def dispatchOutcome (out : CallOutcome) : Envelope :=
  match out with
  | .success v => ⟨[renderJson v], false⟩
  | .jiraError e => ⟨["Jira API Error: " ++ e.message], true⟩
  | .otherFailure msg => ⟨["Error: " ++ msg], true⟩

/-- src/index.ts lines 110-217, the `CallToolRequestSchema` handler: switch
on the tool name; known names validate the arguments (a zod failure is caught
by the generic branch and wrapped as `Error: <diagnostic>`), build the
outbound request and run it through the backend; an unknown name throws
`McpError(MethodNotFound)`, rethrown past the handler by the catch. -/
def handle (backend : FetchOutcome) (name : String)
    (args : List (String × JVal)) : HandleResult :=
  if name = "jira_search_issues" then
    match SearchIssuesSchema_parse args with
    | .error d => .ok ⟨["Error: " ++ d], true⟩
    | .ok input =>
        let _req := searchIssues input.jql
          { maxResults := some input.maxResults, fields := input.fields }
        .ok (dispatchOutcome (backendCall backend))
  else if name = "jira_get_issue" then
    match GetIssueSchema_parse args with
    | .error d => .ok ⟨["Error: " ++ d], true⟩
    | .ok input =>
        let _req := getIssue input.issueKey
          { fields := input.fields, expand := input.expand }
        .ok (dispatchOutcome (backendCall backend))
  else if name = "jira_create_issue" then
    match CreateIssueSchema_parse args with
    | .error d => .ok ⟨["Error: " ++ d], true⟩
    | .ok input =>
        let _req := createIssue (buildCreateIssueFields input)
        .ok (dispatchOutcome (backendCall backend))
  else if name = "jira_add_comment" then
    match AddCommentSchema_parse args with
    | .error d => .ok ⟨["Error: " ++ d], true⟩
    | .ok input =>
        let _req := addComment input.issueKey input.body input.visibility
        .ok (dispatchOutcome (backendCall backend))
  else
    .mcpError methodNotFoundCode ("Unknown tool: " ++ name)

/-- Whether a parse succeeded. -/
def exceptOk {α : Type} : Except String α → Bool
  | .ok _ => true
  | .error _ => false

/-- The diagnostic of a failed parse. -/
def exceptDiag {α : Type} : Except String α → Option String
  | .ok _ => none
  | .error d => some d

/-- Whether the raw arguments validate for a catalogued tool name. -/
def validArgsFor (name : String) (args : List (String × JVal)) : Bool :=
  if name = "jira_search_issues" then exceptOk (SearchIssuesSchema_parse args)
  else if name = "jira_get_issue" then exceptOk (GetIssueSchema_parse args)
  else if name = "jira_create_issue" then exceptOk (CreateIssueSchema_parse args)
  else if name = "jira_add_comment" then exceptOk (AddCommentSchema_parse args)
  else false

/-- The validation diagnostic `handle` would observe for a catalogued name,
when validation fails. -/
def parseDiagFor (name : String) (args : List (String × JVal)) : Option String :=
  if name = "jira_search_issues" then exceptDiag (SearchIssuesSchema_parse args)
  else if name = "jira_get_issue" then exceptDiag (GetIssueSchema_parse args)
  else if name = "jira_create_issue" then exceptDiag (CreateIssueSchema_parse args)
  else if name = "jira_add_comment" then exceptDiag (AddCommentSchema_parse args)
  else none

/-! ## Shared helper lemmas -/

/-- A string starting with a non-empty literal is non-empty. -/
theorem append_ne_empty_of_left_pos (s t : String) (h : 0 < s.length) :
    s ++ t ≠ "" := by
  intro he
  have hl := congrArg String.length he
  rw [String.length_append, String.length_empty] at hl
  omega

/-- `asStringList` succeeds on a list of JSON strings and returns them. -/
theorem asStringList_map_str (k : String) (fs : List String) :
    asStringList k (fs.map JVal.str) = Except.ok fs := by
  induction fs with
  | nil => rfl
  | cons s rest ih => simp [asStringList, ih, Except.map]

/-- Key of a serialized optional field. -/
theorem optJsonField_key_mem {k key : String} {v : Option JVal}
    (h : k ∈ (optJsonField key v).map Prod.fst) : k = key ∧ v ≠ none := by
  cases v with
  | none => simp [optJsonField] at h
  | some j =>
      simp [optJsonField] at h
      exact ⟨h, by simp⟩

/-! ## Claim theorems -/

/-- Claim C8: every `searchIssues(jql, options)` call produces a POST to the
search path whose JSON body is `{jql, maxResults, startAt, fields}`, where
`maxResults` defaults to 50 and `startAt` to 0 when absent; an omitted
`options.fields` is replaced by the fixed default projection and a provided
one is passed through unchanged. -/
theorem searchIssues_request_shape (jql : String) (options : SearchOptions) :
    searchIssues jql options =
      { method := "POST", endpoint := "/search",
        body :=
          { jql := jql
            maxResults := options.maxResults.getD 50
            startAt := options.startAt.getD 0
            fields := options.fields.getD
              ["key", "summary", "status", "assignee", "issuetype",
               "priority", "project", "created", "updated"] } }
    ∧ (∀ fs : List String,
        (searchIssues jql { options with fields := some fs }).body.fields = fs) :=
  ⟨rfl, fun _ => rfl⟩

/-- Claim C9: for every `getIssue(idOrKey, options)` call, when both `fields`
and `expand` are absent or empty the endpoint is exactly `/issue/<idOrKey>`
with no query string; a non-empty list is joined by commas into its
query-string parameter (`fields` first, then `expand`). -/
theorem getIssue_endpoint_shape (issueIdOrKey : String)
    (options : GetIssueOptions) :
    ((options.fields = none ∨ options.fields = some []) →
     (options.expand = none ∨ options.expand = some []) →
        getIssue issueIdOrKey options = ⟨"GET", "/issue/" ++ issueIdOrKey⟩)
  ∧ (∀ fs, options.fields = some fs → fs ≠ [] →
       (options.expand = none ∨ options.expand = some []) →
        getIssue issueIdOrKey options =
          ⟨"GET", "/issue/" ++ issueIdOrKey ++ "?fields=" ++ joinStr "," fs⟩)
  ∧ (∀ es, options.expand = some es → es ≠ [] →
       (options.fields = none ∨ options.fields = some []) →
        getIssue issueIdOrKey options =
          ⟨"GET", "/issue/" ++ issueIdOrKey ++ "?expand=" ++ joinStr "," es⟩)
  ∧ (∀ fs es, options.fields = some fs → fs ≠ [] →
       options.expand = some es → es ≠ [] →
        getIssue issueIdOrKey options =
          ⟨"GET", "/issue/" ++ issueIdOrKey ++ "?fields=" ++ joinStr "," fs
             ++ "&expand=" ++ joinStr "," es⟩) := by
  obtain ⟨fo, eo⟩ := options
  refine ⟨?_, ?_, ?_, ?_⟩
  · rintro (rfl | rfl) (rfl | rfl) <;>
      simp [getIssue, joinStr, String.append_empty]
  · rintro fs rfl hfs (rfl | rfl) <;>
    · have hlen : 0 < fs.length := List.length_pos.mpr hfs
      have hne : ("fields" ++ "=" ++ joinStr "," fs) ≠ "" := by
        intro he
        exact append_ne_empty_of_left_pos ("fields" ++ "=") (joinStr "," fs)
          (by decide) he
      simp only [getIssue, List.nil_append, List.append_nil]
      rw [if_pos hlen]
      simp only [List.map_cons, List.map_nil, joinStr]
      rw [if_neg hne]
      simp only [String.append_assoc]
      rfl
  · rintro es rfl hes (rfl | rfl) <;>
    · have hlen : 0 < es.length := List.length_pos.mpr hes
      have hne : ("expand" ++ "=" ++ joinStr "," es) ≠ "" := by
        intro he
        exact append_ne_empty_of_left_pos ("expand" ++ "=") (joinStr "," es)
          (by decide) he
      simp only [getIssue, List.nil_append, List.append_nil]
      rw [if_pos hlen]
      simp only [List.map_cons, List.map_nil, joinStr]
      rw [if_neg hne]
      simp only [String.append_assoc]
      rfl
  · rintro fs es rfl hfs rfl hes
    have hlf : 0 < fs.length := List.length_pos.mpr hfs
    have hle : 0 < es.length := List.length_pos.mpr hes
    have hne : ("fields" ++ "=" ++ joinStr "," fs ++ "&"
        ++ ("expand" ++ "=" ++ joinStr "," es)) ≠ "" := by
      intro he
      exact append_ne_empty_of_left_pos ("fields" ++ "=") _ (by decide)
        (by simpa [String.append_assoc] using he)
    simp only [getIssue]
    rw [if_pos hlf, if_pos hle]
    simp only [List.cons_append, List.nil_append, List.map_cons, List.map_nil,
      joinStr]
    rw [if_neg hne]
    simp only [String.append_assoc]
    rfl

/-- Witness for C9: a concrete `getIssue` call with two fields and an empty
expand list yields exactly `/issue/PROJ-1?fields=summary,status`. -/
theorem getIssue_endpoint_shape_witness :
    getIssue "PROJ-1" { fields := some ["summary", "status"],
                        expand := some [] } =
      { method := "GET", endpoint := "/issue/PROJ-1?fields=summary,status" } := by
  have h := (getIssue_endpoint_shape "PROJ-1"
      { fields := some ["summary", "status"], expand := some [] }).2.1
    ["summary", "status"] rfl (by decide) (Or.inr rfl)
  exact h

/-- Claim C2: the request primitive throws a `JiraClientError` exactly when
the HTTP status is outside 200-299; its message lists each top-level error
message followed by `field: message` for each field-level error, joined with
`"; "` when non-empty, and otherwise is `HTTP <status>: <statusText>`; the
error carries the numeric status and the parsed structured body when the
body parsed, and no structured body when it did not. -/
theorem request_error_classification (resp : HttpResponse) :
    (¬ (200 ≤ resp.status ∧ resp.status ≤ 299) →
      request resp = CallOutcome.jiraError
        { message :=
            if (((resp.parsedErrorBody.bind JiraErrorResponse.errorMessages).getD [])
                ++ (((resp.parsedErrorBody.bind JiraErrorResponse.errors).getD []).map
                      (fun p => p.1 ++ ": " ++ p.2))).length > 0
            then joinStr "; "
              (((resp.parsedErrorBody.bind JiraErrorResponse.errorMessages).getD [])
                ++ (((resp.parsedErrorBody.bind JiraErrorResponse.errors).getD []).map
                      (fun p => p.1 ++ ": " ++ p.2)))
            else "HTTP " ++ toString resp.status ++ ": " ++ resp.statusText,
          statusCode := some resp.status,
          jiraErrors := resp.parsedErrorBody })
  ∧ ((200 ≤ resp.status ∧ resp.status ≤ 299) →
      ∀ e, request resp ≠ CallOutcome.jiraError e) := by
  constructor
  · intro h
    unfold request
    rw [if_pos h]
  · intro h e
    unfold request
    rw [if_neg (not_not_intro h)]
    split
    · intro hc
      exact CallOutcome.noConfusion hc
    · cases resp.parsedJson with
      | some v =>
          intro hc
          exact CallOutcome.noConfusion hc
      | none =>
          intro hc
          exact CallOutcome.noConfusion hc

/-- Witness for C2: a 404 whose body parsed to one top-level message and one
field error produces a `JiraClientError` with the joined message, the status
and the structured body. -/
theorem request_error_classification_witness :
    request ⟨404, "Not Found", "x", some ⟨some ["a"], some [("f", "m")]⟩, none⟩ =
      CallOutcome.jiraError
        ⟨"a; f: m", some 404, some ⟨some ["a"], some [("f", "m")]⟩⟩ := by
  have h := (request_error_classification
      ⟨404, "Not Found", "x", some ⟨some ["a"], some [("f", "m")]⟩, none⟩).1
    (by decide)
  exact h

/-- Counterexample to claim C6 as stated: an HTTP 500 response with an empty
body still throws a `JiraClientError` (the non-2xx check runs first), so "the
call does not throw and returns {}" fails for an empty body alone. -/
theorem request_empty_success_cex :
    request ⟨500, "Internal Server Error", "", none, none⟩ =
      CallOutcome.jiraError ⟨"HTTP 500: Internal Server Error", some 500, none⟩
  ∧ request ⟨500, "Internal Server Error", "", none, none⟩ ≠
      CallOutcome.success (JVal.obj []) := by
  constructor
  · rfl
  · intro h
    have h2 : CallOutcome.jiraError
        ⟨"HTTP 500: Internal Server Error", some 500, none⟩ =
        CallOutcome.success (JVal.obj []) := h
    exact CallOutcome.noConfusion h2

/-- Claim C6 amended: for every response whose status is 204, or whose status
is in 200-299 and whose body is empty, the request primitive does not throw
and returns the empty structure; and an add-comment invocation against a
backend answering 204 with empty body produces a success envelope whose
payload is the empty-object rendering. -/
theorem request_empty_success (resp : HttpResponse) :
    ((resp.status = 204 ∨
        ((200 ≤ resp.status ∧ resp.status ≤ 299) ∧ resp.bodyText = "")) →
       request resp = CallOutcome.success (JVal.obj []))
  ∧ (handle (FetchOutcome.response ⟨204, "No Content", "", none, none⟩)
       "jira_add_comment"
       [("issueKey", JVal.str "TEST-1"), ("body", JVal.str "hi")] =
       HandleResult.ok ⟨[renderJson (JVal.obj [])], false⟩)
  ∧ renderJson (JVal.obj []) = "\x7b\x7d" := by
  refine ⟨?_, rfl, rfl⟩
  rintro (h204 | ⟨hok, hbody⟩)
  · unfold request
    rw [if_neg (not_not_intro (by omega)), if_pos (Or.inl h204)]
  · unfold request
    rw [if_neg (not_not_intro hok), if_pos (Or.inr hbody)]

/-- Witness for C6: a concrete 204 response returns the empty structure. -/
theorem request_empty_success_witness :
    request ⟨204, "No Content", "", none, none⟩ =
      CallOutcome.success (JVal.obj []) :=
  (request_empty_success ⟨204, "No Content", "", none, none⟩).1 (Or.inl rfl)

/-- Claim C7: the search input schema accepts every payload built from a
string `jql`, an optional integer `maxResults` within 1-100 (defaulting to
50 when omitted) and an optional string-array `fields`; and it rejects every
payload whose `maxResults` key holds anything other than an integer number
between 1 and 100 — in particular `maxResults = 0` and `maxResults = 101`. -/
theorem searchSchema_bounds :
    (∀ (jql : String) (mr : Option Int) (fields : Option (List String)),
       (∀ n, mr = some n → 1 ≤ n ∧ n ≤ 100) →
       SearchIssuesSchema_parse
           ([("jql", JVal.str jql)]
             ++ (match mr with
                 | some n => [("maxResults", JVal.num (n : ℚ))]
                 | none => [])
             ++ (match fields with
                 | some fs => [("fields", JVal.arr (fs.map JVal.str))]
                 | none => []))
         = Except.ok ⟨jql, mr.getD 50, fields⟩)
  ∧ (∀ (args : List (String × JVal)) (v : JVal),
       getField args "maxResults" = some v →
       (∀ q : ℚ, v = JVal.num q → (q.den ≠ 1 ∨ q < 1 ∨ 100 < q)) →
       ∀ inp, SearchIssuesSchema_parse args ≠ Except.ok inp)
  ∧ (∀ inp, SearchIssuesSchema_parse
        [("jql", JVal.str "x"), ("maxResults", JVal.num 0)] ≠ Except.ok inp)
  ∧ (∀ inp, SearchIssuesSchema_parse
        [("jql", JVal.str "x"), ("maxResults", JVal.num 101)] ≠ Except.ok inp) := by
  refine ⟨?_, ?_, ?_, ?_⟩
  · intro jql mr fields hb
    cases mr with
    | none =>
        cases fields with
        | none =>
            simp [SearchIssuesSchema_parse, reqString, getField, optStringArray,
              Bind.bind, Except.bind, pure, Except.pure]
        | some fs =>
            simp [SearchIssuesSchema_parse, reqString, getField, optStringArray,
              asStringList_map_str, Bind.bind, Except.bind, Except.map, pure,
              Except.pure]
    | some n =>
        have hden : ((n : ℚ)).den = 1 := Rat.den_intCast n
        have h2 : ¬((n : ℚ) < 1) := not_lt.mpr (by exact_mod_cast (hb n rfl).1)
        have h3 : ¬((100 : ℚ) < (n : ℚ)) :=
          not_lt.mpr (by exact_mod_cast (hb n rfl).2)
        cases fields with
        | none =>
            simp [SearchIssuesSchema_parse, reqString, getField, optStringArray,
              hden, h2, h3, Rat.num_intCast, Bind.bind, Except.bind, pure,
              Except.pure]
        | some fs =>
            simp [SearchIssuesSchema_parse, reqString, getField, optStringArray,
              asStringList_map_str, hden, h2, h3, Rat.num_intCast, Bind.bind,
              Except.bind, Except.map, pure, Except.pure]
  · intro args v hv hq inp hok
    cases h1 : reqString args "jql" with
    | error d => simp [SearchIssuesSchema_parse, h1, Bind.bind, Except.bind] at hok
    | ok s =>
        cases v with
        | num q =>
            rcases hq q rfl with hden | hlt | hgt
            · simp [SearchIssuesSchema_parse, h1, hv, hden, Bind.bind,
                Except.bind] at hok
            · by_cases hd : q.den = 1
              · simp [SearchIssuesSchema_parse, h1, hv, hd, hlt, Bind.bind,
                  Except.bind] at hok
              · simp [SearchIssuesSchema_parse, h1, hv, hd, Bind.bind,
                  Except.bind] at hok
            · by_cases hd : q.den = 1
              · by_cases hq1 : q < 1
                · simp [SearchIssuesSchema_parse, h1, hv, hd, hq1, Bind.bind,
                    Except.bind] at hok
                · simp [SearchIssuesSchema_parse, h1, hv, hd, hq1, hgt,
                    Bind.bind, Except.bind] at hok
              · simp [SearchIssuesSchema_parse, h1, hv, hd, Bind.bind,
                  Except.bind] at hok
        | null =>
            simp [SearchIssuesSchema_parse, h1, hv, Bind.bind, Except.bind] at hok
        | bool b =>
            simp [SearchIssuesSchema_parse, h1, hv, Bind.bind, Except.bind] at hok
        | str s2 =>
            simp [SearchIssuesSchema_parse, h1, hv, Bind.bind, Except.bind] at hok
        | arr xs =>
            simp [SearchIssuesSchema_parse, h1, hv, Bind.bind, Except.bind] at hok
        | obj fs2 =>
            simp [SearchIssuesSchema_parse, h1, hv, Bind.bind, Except.bind] at hok
  · intro inp h
    have he : SearchIssuesSchema_parse
        [("jql", JVal.str "x"), ("maxResults", JVal.num 0)] =
        Except.error "maxResults: Number must be greater than or equal to 1" := rfl
    rw [he] at h
    exact Except.noConfusion h
  · intro inp h
    have he : SearchIssuesSchema_parse
        [("jql", JVal.str "x"), ("maxResults", JVal.num 101)] =
        Except.error "maxResults: Number must be less than or equal to 100" := rfl
    rw [he] at h
    exact Except.noConfusion h

/-- Witness for C7: the payload `{jql: "x", maxResults: 20}` is accepted with
`maxResults = 20`, and omitting `maxResults` defaults it to 50. -/
theorem searchSchema_bounds_witness :
    SearchIssuesSchema_parse
        ([("jql", JVal.str "x")] ++ [("maxResults", JVal.num ((20 : Int) : ℚ))]
          ++ []) = Except.ok ⟨"x", 20, none⟩
  ∧ SearchIssuesSchema_parse ([("jql", JVal.str "x")] ++ [] ++ []) =
      Except.ok ⟨"x", 50, none⟩ := by
  constructor
  · exact searchSchema_bounds.1 "x" (some 20) none
      (by rintro n hn; injection hn with hn; subst hn; constructor <;> decide)
  · exact searchSchema_bounds.1 "x" none none (by rintro n hn; cases hn)

/-- Claim C4: for every name outside the four-element catalog, `handle`
signals a protocol-level MethodNotFound fault (thrown `McpError`), never a
business-error envelope; for every name inside the catalog, no failure is
thrown past `handle` — every invocation terminates in an envelope. -/
theorem handle_protocol_boundary (backend : FetchOutcome) (name : String)
    (args : List (String × JVal)) :
    (name ∉ toolNames →
       handle backend name args =
         HandleResult.mcpError methodNotFoundCode ("Unknown tool: " ++ name))
  ∧ (name ∈ toolNames →
       ∃ env, handle backend name args = HandleResult.ok env) := by
  constructor
  · intro h
    simp only [toolNames, List.mem_cons, List.not_mem_nil, or_false,
      not_or] at h
    obtain ⟨h1, h2, h3, h4⟩ := h
    simp [handle, h1, h2, h3, h4]
  · intro h
    simp only [toolNames, List.mem_cons, List.not_mem_nil, or_false] at h
    rcases h with rfl | rfl | rfl | rfl
    · cases hp : SearchIssuesSchema_parse args with
      | error d => exact ⟨⟨["Error: " ++ d], true⟩, by simp [handle, hp]⟩
      | ok input =>
          exact ⟨dispatchOutcome (backendCall backend), by simp [handle, hp]⟩
    · cases hp : GetIssueSchema_parse args with
      | error d => exact ⟨⟨["Error: " ++ d], true⟩, by simp [handle, hp]⟩
      | ok input =>
          exact ⟨dispatchOutcome (backendCall backend), by simp [handle, hp]⟩
    · cases hp : CreateIssueSchema_parse args with
      | error d => exact ⟨⟨["Error: " ++ d], true⟩, by simp [handle, hp]⟩
      | ok input =>
          exact ⟨dispatchOutcome (backendCall backend), by simp [handle, hp]⟩
    · cases hp : AddCommentSchema_parse args with
      | error d => exact ⟨⟨["Error: " ++ d], true⟩, by simp [handle, hp]⟩
      | ok input =>
          exact ⟨dispatchOutcome (backendCall backend), by simp [handle, hp]⟩

/-- Witness for C4: `not_a_real_tool` is rejected with the MethodNotFound
fault even when the backend is down, while a catalogued name still returns
an envelope in the same situation. -/
theorem handle_protocol_boundary_witness :
    handle (FetchOutcome.transportError "connect ECONNREFUSED")
        "not_a_real_tool" [] =
      HandleResult.mcpError methodNotFoundCode "Unknown tool: not_a_real_tool"
  ∧ ∃ env, handle (FetchOutcome.transportError "connect ECONNREFUSED")
        "jira_add_comment" [] = HandleResult.ok env := by
  constructor
  · exact (handle_protocol_boundary _ _ _).1 (by decide)
  · exact (handle_protocol_boundary _ _ _).2 (by decide)

/-- Claim C3: whenever a catalogued tool's validated invocation hits a
backend response that `request` classifies as a `JiraClientError`, `handle`
returns (never throws) an envelope with `isError` and a single text block
`Jira API Error: <message>`; in particular an HTTP 400 whose body parsed to
`{errorMessages: ["JQL is invalid"]}` makes `jira_search_issues` return an
error envelope whose text contains `JQL is invalid`. -/
theorem handle_remote_error :
    (∀ (resp : HttpResponse) (name : String) (args : List (String × JVal))
        (e : JiraClientError),
       name ∈ toolNames → validArgsFor name args = true →
       request resp = CallOutcome.jiraError e →
       handle (FetchOutcome.response resp) name args =
         HandleResult.ok ⟨["Jira API Error: " ++ e.message], true⟩)
  ∧ (handle (FetchOutcome.response
        ⟨400, "Bad Request", "\x7b\"errorMessages\":[\"JQL is invalid\"]\x7d",
         some ⟨some ["JQL is invalid"], none⟩, none⟩)
        "jira_search_issues" [("jql", JVal.str "bad")] =
       HandleResult.ok ⟨["Jira API Error: JQL is invalid"], true⟩
     ∧ ∃ a b : String,
         "Jira API Error: JQL is invalid" = a ++ "JQL is invalid" ++ b) := by
  constructor
  · intro resp name args e hmem hval hreq
    simp only [toolNames, List.mem_cons, List.not_mem_nil, or_false] at hmem
    rcases hmem with rfl | rfl | rfl | rfl
    · simp [validArgsFor] at hval
      cases hp : SearchIssuesSchema_parse args with
      | error d => simp [exceptOk, hp] at hval
      | ok input => simp [handle, hp, backendCall, hreq, dispatchOutcome]
    · simp [validArgsFor] at hval
      cases hp : GetIssueSchema_parse args with
      | error d => simp [exceptOk, hp] at hval
      | ok input => simp [handle, hp, backendCall, hreq, dispatchOutcome]
    · simp [validArgsFor] at hval
      cases hp : CreateIssueSchema_parse args with
      | error d => simp [exceptOk, hp] at hval
      | ok input => simp [handle, hp, backendCall, hreq, dispatchOutcome]
    · simp [validArgsFor] at hval
      cases hp : AddCommentSchema_parse args with
      | error d => simp [exceptOk, hp] at hval
      | ok input => simp [handle, hp, backendCall, hreq, dispatchOutcome]
  · exact ⟨rfl, "Jira API Error: ", "", rfl⟩

/-- Witness for C3: a validated `jira_get_issue` call against a 403 response
with unparseable body returns the framed fallback message. -/
theorem handle_remote_error_witness :
    handle (FetchOutcome.response ⟨403, "Forbidden", "denied", none, none⟩)
        "jira_get_issue" [("issueKey", JVal.str "K-1")] =
      HandleResult.ok ⟨["Jira API Error: HTTP 403: Forbidden"], true⟩ :=
  handle_remote_error.1 ⟨403, "Forbidden", "denied", none, none⟩
    "jira_get_issue" [("issueKey", JVal.str "K-1")]
    ⟨"HTTP 403: Forbidden", some 403, none⟩ (by decide) rfl rfl

/-- Counterexample to claim C5 as stated: for a catalogued operation whose
arguments fail validation, the envelope text is not the validator's
diagnostic verbatim — the dispatcher prefixes it with `Error: `. -/
theorem handle_validation_text_cex :
    SearchIssuesSchema_parse [] = Except.error "jql: Required"
  ∧ handle (FetchOutcome.response ⟨200, "OK", "", none, none⟩)
      "jira_search_issues" [] =
      HandleResult.ok ⟨["Error: jql: Required"], true⟩
  ∧ "Error: jql: Required" ≠ "jql: Required" :=
  ⟨rfl, rfl, by decide⟩

/-- Claim C5 amended: for every catalogued invocation whose raw arguments
fail schema validation, `handle` returns an envelope with `isError` whose
single text block is `Error: ` followed by the validator's diagnostic (the
failure is tool-failure content, not a protocol fault). -/
theorem handle_validation_text (backend : FetchOutcome) (name : String)
    (args : List (String × JVal)) (d : String) :
    name ∈ toolNames → parseDiagFor name args = some d →
    handle backend name args = HandleResult.ok ⟨["Error: " ++ d], true⟩ := by
  intro hmem hd
  simp only [toolNames, List.mem_cons, List.not_mem_nil, or_false] at hmem
  rcases hmem with rfl | rfl | rfl | rfl
  · simp [parseDiagFor] at hd
    cases hp : SearchIssuesSchema_parse args with
    | error d2 =>
        rw [hp] at hd
        simp only [exceptDiag, Option.some.injEq] at hd
        subst hd
        simp [handle, hp]
    | ok input => rw [hp] at hd; simp [exceptDiag] at hd
  · simp [parseDiagFor] at hd
    cases hp : GetIssueSchema_parse args with
    | error d2 =>
        rw [hp] at hd
        simp only [exceptDiag, Option.some.injEq] at hd
        subst hd
        simp [handle, hp]
    | ok input => rw [hp] at hd; simp [exceptDiag] at hd
  · simp [parseDiagFor] at hd
    cases hp : CreateIssueSchema_parse args with
    | error d2 =>
        rw [hp] at hd
        simp only [exceptDiag, Option.some.injEq] at hd
        subst hd
        simp [handle, hp]
    | ok input => rw [hp] at hd; simp [exceptDiag] at hd
  · simp [parseDiagFor] at hd
    cases hp : AddCommentSchema_parse args with
    | error d2 =>
        rw [hp] at hd
        simp only [exceptDiag, Option.some.injEq] at hd
        subst hd
        simp [handle, hp]
    | ok input => rw [hp] at hd; simp [exceptDiag] at hd

/-- Witness for C5 (amended): a `jira_create_issue` call with empty arguments
is reported as `Error: projectKey: Required` tool-failure content. -/
theorem handle_validation_text_witness :
    handle (FetchOutcome.transportError "down") "jira_create_issue" [] =
      HandleResult.ok ⟨["Error: projectKey: Required"], true⟩ :=
  handle_validation_text (FetchOutcome.transportError "down")
    "jira_create_issue" [] "projectKey: Required" (by decide) rfl

/-- Counterexample to claim C1 as stated: an empty-string `priority` is a
valid create input (the schema only requires a string), yet the dispatcher's
JS truthiness check (`input.priority ? {name: input.priority} : undefined`)
drops it instead of wrapping it as `{name: ""}`. -/
theorem create_fields_shaping_cex :
    CreateIssueSchema_parse
        [("projectKey", JVal.str "TEST"), ("summary", JVal.str "x"),
         ("issueType", JVal.str "Bug"), ("priority", JVal.str "")] =
      Except.ok ⟨"TEST", "x", "Bug", none, some "", none, none, none⟩
  ∧ (buildCreateIssueFields
        ⟨"TEST", "x", "Bug", none, some "", none, none, none⟩).priority = none
  ∧ (buildCreateIssueFields
        ⟨"TEST", "x", "Bug", none, some "", none, none, none⟩).priority ≠
      some ⟨""⟩ :=
  ⟨rfl, rfl, by decide⟩

/-- Claim C1 amended: for every validated create input, the dispatcher hands
the backend a fields object in which the bare project key becomes `{key:..}`,
the bare issue-type name becomes `{name:..}`, every present non-empty
priority or assignee name becomes `{name:..}` (present empty strings are
dropped by the JS truthiness check) and each component name becomes a
`{name:..}` element of an array; for the example input the object is exactly
the expected nested shape. -/
theorem create_fields_shaping :
    (∀ input : CreateIssueInput,
       (buildCreateIssueFields input).project = ⟨input.projectKey⟩
     ∧ (buildCreateIssueFields input).summary = input.summary
     ∧ (buildCreateIssueFields input).issuetype = ⟨input.issueType⟩
     ∧ (buildCreateIssueFields input).description = input.description
     ∧ (∀ p, input.priority = some p → p ≠ "" →
          (buildCreateIssueFields input).priority = some ⟨p⟩)
     ∧ (∀ a, input.assignee = some a → a ≠ "" →
          (buildCreateIssueFields input).assignee = some ⟨a⟩)
     ∧ (buildCreateIssueFields input).labels = input.labels
     ∧ (buildCreateIssueFields input).components
         = input.components.map (fun cs => cs.map NameRef.mk))
  ∧ (CreateIssueSchema_parse
        [("projectKey", JVal.str "TEST"), ("summary", JVal.str "x"),
         ("issueType", JVal.str "Bug"), ("priority", JVal.str "High"),
         ("components", JVal.arr [JVal.str "UI", JVal.str "API"])] =
       Except.ok ⟨"TEST", "x", "Bug", none, some "High", none, none,
                  some ["UI", "API"]⟩
     ∧ buildCreateIssueFields
         ⟨"TEST", "x", "Bug", none, some "High", none, none,
          some ["UI", "API"]⟩ =
         { project := ⟨"TEST"⟩, summary := "x", issuetype := ⟨"Bug"⟩,
           description := none, priority := some ⟨"High"⟩, assignee := none,
           labels := none, components := some [⟨"UI"⟩, ⟨"API"⟩] }) := by
  refine ⟨?_, rfl, rfl⟩
  intro input
  refine ⟨rfl, rfl, rfl, rfl, ?_, ?_, rfl, rfl⟩
  · intro p hp hne
    simp [buildCreateIssueFields, hp, hne]
  · intro a ha hne
    simp [buildCreateIssueFields, ha, hne]

/-- Witness for C1 (amended): a concrete non-empty priority is wrapped as a
name reference. -/
theorem create_fields_shaping_witness :
    (buildCreateIssueFields
        ⟨"T", "s", "Task", none, some "Low", some "bob", none, none⟩).priority
      = some ⟨"Low"⟩ :=
  (create_fields_shaping.1
      ⟨"T", "s", "Task", none, some "Low", some "bob", none, none⟩).2.2.2.2.1
    "Low" rfl (by decide)

/-- The only keys the serialized create-fields object can carry, and the
optional ones only when the corresponding field is present. -/
theorem serializeCreateFields_keys (f : CreateIssueFields) (k : String)
    (hk : k ∈ (serializeCreateFields f).map Prod.fst) :
    k = "project" ∨ k = "summary" ∨ k = "issuetype"
  ∨ (k = "description" ∧ f.description ≠ none)
  ∨ (k = "priority" ∧ f.priority ≠ none)
  ∨ (k = "assignee" ∧ f.assignee ≠ none)
  ∨ (k = "labels" ∧ f.labels ≠ none)
  ∨ (k = "components" ∧ f.components ≠ none) := by
  simp only [serializeCreateFields, List.map_append, List.mem_append,
    List.map_cons, List.map_nil, List.mem_cons, List.not_mem_nil,
    or_false] at hk
  rcases hk with (((((h | h | h) | h) | h) | h) | h) | h
  · exact Or.inl h
  · exact Or.inr (Or.inl h)
  · exact Or.inr (Or.inr (Or.inl h))
  · obtain ⟨hke, hv⟩ := optJsonField_key_mem h
    exact Or.inr (Or.inr (Or.inr (Or.inl
      ⟨hke, by simpa [Option.map_eq_none'] using hv⟩)))
  · obtain ⟨hke, hv⟩ := optJsonField_key_mem h
    exact Or.inr (Or.inr (Or.inr (Or.inr (Or.inl
      ⟨hke, by simpa [Option.map_eq_none'] using hv⟩))))
  · obtain ⟨hke, hv⟩ := optJsonField_key_mem h
    exact Or.inr (Or.inr (Or.inr (Or.inr (Or.inr (Or.inl
      ⟨hke, by simpa [Option.map_eq_none'] using hv⟩)))))
  · obtain ⟨hke, hv⟩ := optJsonField_key_mem h
    exact Or.inr (Or.inr (Or.inr (Or.inr (Or.inr (Or.inr (Or.inl
      ⟨hke, by simpa [Option.map_eq_none'] using hv⟩))))))
  · obtain ⟨hke, hv⟩ := optJsonField_key_mem h
    exact Or.inr (Or.inr (Or.inr (Or.inr (Or.inr (Or.inr (Or.inr
      ⟨hke, by simpa [Option.map_eq_none'] using hv⟩))))))

/-- Claim C10: the outbound create body is `{fields: <serialized fields>}`,
and every optional parameter absent from the validated input is also absent
as a key of the serialized fields object (absent options become `undefined`
and `JSON.stringify` drops `undefined`-valued keys). -/
theorem create_body_omits_absent (input : CreateIssueInput) :
    (createIssue (buildCreateIssueFields input)).body =
      JVal.obj [("fields",
        JVal.obj (serializeCreateFields (buildCreateIssueFields input)))]
  ∧ (input.description = none → "description" ∉
      (serializeCreateFields (buildCreateIssueFields input)).map Prod.fst)
  ∧ (input.priority = none → "priority" ∉
      (serializeCreateFields (buildCreateIssueFields input)).map Prod.fst)
  ∧ (input.assignee = none → "assignee" ∉
      (serializeCreateFields (buildCreateIssueFields input)).map Prod.fst)
  ∧ (input.labels = none → "labels" ∉
      (serializeCreateFields (buildCreateIssueFields input)).map Prod.fst)
  ∧ (input.components = none → "components" ∉
      (serializeCreateFields (buildCreateIssueFields input)).map Prod.fst) := by
  refine ⟨rfl, ?_, ?_, ?_, ?_, ?_⟩
  · intro h hmem
    have hd : (buildCreateIssueFields input).description = none := by
      simp [buildCreateIssueFields, h]
    rcases serializeCreateFields_keys _ _ hmem with
      hc | hc | hc | ⟨_, hc⟩ | ⟨hc, _⟩ | ⟨hc, _⟩ | ⟨hc, _⟩ | ⟨hc, _⟩ <;>
      simp_all
  · intro h hmem
    have hd : (buildCreateIssueFields input).priority = none := by
      simp [buildCreateIssueFields, h]
    rcases serializeCreateFields_keys _ _ hmem with
      hc | hc | hc | ⟨hc, _⟩ | ⟨_, hc⟩ | ⟨hc, _⟩ | ⟨hc, _⟩ | ⟨hc, _⟩ <;>
      simp_all
  · intro h hmem
    have hd : (buildCreateIssueFields input).assignee = none := by
      simp [buildCreateIssueFields, h]
    rcases serializeCreateFields_keys _ _ hmem with
      hc | hc | hc | ⟨hc, _⟩ | ⟨hc, _⟩ | ⟨_, hc⟩ | ⟨hc, _⟩ | ⟨hc, _⟩ <;>
      simp_all
  · intro h hmem
    have hd : (buildCreateIssueFields input).labels = none := by
      simp [buildCreateIssueFields, h]
    rcases serializeCreateFields_keys _ _ hmem with
      hc | hc | hc | ⟨hc, _⟩ | ⟨hc, _⟩ | ⟨hc, _⟩ | ⟨_, hc⟩ | ⟨hc, _⟩ <;>
      simp_all
  · intro h hmem
    have hd : (buildCreateIssueFields input).components = none := by
      simp [buildCreateIssueFields, h]
    rcases serializeCreateFields_keys _ _ hmem with
      hc | hc | hc | ⟨hc, _⟩ | ⟨hc, _⟩ | ⟨hc, _⟩ | ⟨hc, _⟩ | ⟨_, hc⟩ <;>
      simp_all

/-- Witness for C10: with every optional input absent, the serialized body
object carries no `priority` key. -/
theorem create_body_omits_absent_witness :
    "priority" ∉ (serializeCreateFields (buildCreateIssueFields
        ⟨"T", "s", "Bug", none, none, none, none, none⟩)).map Prod.fst :=
  (create_body_omits_absent
      ⟨"T", "s", "Bug", none, none, none, none, none⟩).2.2.1 rfl

end JiraMcp
